import Mathlib

/-!
Verification of the speech-coach orchestration pipeline and GigaChat client.

Shallow embedding of:
- `app/services/pipeline.py` (`SpeechAnalysisPipeline`: `analyze_upload`,
  `_validate_file`, `_validate_file_size`, `_save_upload_to_path`,
  `_cleanup_temp_files`),
- `app/services/gigachat.py` (`GigaChatClient`: `authenticate`,
  `_retry_without_ssl`, `analyze_speech`),
- `app/core/exceptions.py` (the domain error taxonomy),
- `app/core/config.py` (the validation defaults).

External I/O (HTTP responses, subprocess results, filesystem) is modelled by
explicit outcome values threaded through the functions; the filesystem is a
set of existing paths.  Machine floats of the source (sizes in MB, epoch
seconds) are modelled with `Rat`/`Int`.
-/

namespace SpeechCoach

/-! ## String helpers -/

/-- Does `hay` start with `needle`? -/
def listStartsWith : List Char → List Char → Bool
  | [], _ => true
  | _ :: _, [] => false
  | a :: as, b :: bs => a = b && listStartsWith as bs

/-- Is `needle` a contiguous sublist of `hay`? -/
def listIsInfix (needle : List Char) : List Char → Bool
  | [] => listStartsWith needle []
  | b :: bs => listStartsWith needle (b :: bs) || listIsInfix needle bs

/-- Substring containment, modelling the Python test `needle in hay`. -/
def strContains (hay needle : String) : Bool :=
  listIsInfix needle.toList hay.toList

/-- Lower-casing, modelling the Python method `str.lower` (ASCII suffices for
the strings compared by the source). -/
def strToLower (s : String) : String :=
  String.mk (s.toList.map Char.toLower)

/-- Python slicing `s[:n]`: the first `n` code points. -/
def strTake (s : String) (n : Nat) : String :=
  String.mk (s.toList.take n)

/-- Index of the last occurrence of `c`, modelling the Python method `str.rfind`. -/
def rfindChar (c : Char) : List Char → Option Nat
  | [] => none
  | x :: xs =>
    match rfindChar c xs with
    | some i => some (i + 1)
    | none => if x = c then some 0 else none

/-- Index of the first occurrence of `c`. -/
def ffindChar (c : Char) : List Char → Option Nat
  | [] => none
  | x :: xs =>
    if x = c then some 0
    else match ffindChar c xs with
      | some i => some (i + 1)
      | none => none

/-- `pathlib.PurePath.suffix` for a bare filename: the part from the last dot,
provided that dot is neither the first nor the last character. -/
def pathSuffix (name : String) : String :=
  match rfindChar '.' name.toList with
  | none => ""
  | some i =>
    if 0 < i ∧ i < name.toList.length - 1 then
      String.mk (name.toList.drop i)
    else ""

/-- `Path.with_suffix(".wav")`: the name with its suffix replaced by `.wav`. -/
def wavPath (name : String) : String :=
  String.mk (name.toList.take (name.toList.length - (pathSuffix name).toList.length))
    ++ ".wav"

/-! ## Domain error taxonomy (`app/core/exceptions.py`) -/

/-- The domain exception classes of `app/core/exceptions.py`.
`fileTooLarge` keeps the measured size in bytes (the source computes
`file_size_mb = file_size / (1024*1024)` as a float; carrying bytes is exact)
together with the configured limit in MB. -/
inductive SpeechErr where
  | fileTooLarge (fileSizeBytes : Nat) (maxSizeMb : Nat)
  | unsupportedFileType (ext : String) (allowed : List String)
  | transcription (detail : String)
  | analysis (detail : String)
  | gigachat (detail : String)
deriving DecidableEq, Repr

/-- The Python class name of the raised exception. -/
def SpeechErr.kindName : SpeechErr → String
  | .fileTooLarge _ _ => "FileTooLargeError"
  | .unsupportedFileType _ _ => "UnsupportedFileTypeError"
  | .transcription _ => "TranscriptionError"
  | .analysis _ => "AnalysisError"
  | .gigachat _ => "GigaChatError"

/-- The size in tenths of a MB shown by `f"{file_size_mb:.1f}"`:
round-half-to-even of `bytes * 10 / 2^20` (CPython formats the double value;
for the exactly representable sizes used here the two agree). -/
def mbTenths (bytes : Nat) : Nat :=
  let num := bytes * 10
  let q := num / 1048576
  let r := num % 1048576
  if 1048576 < 2 * r then q + 1
  else if 2 * r < 1048576 then q
  else if q % 2 = 0 then q else q + 1

/-- The rendered one-decimal MB figure of the `FileTooLargeError` detail. -/
def renderMbTenths (bytes : Nat) : String :=
  toString (mbTenths bytes / 10) ++ "." ++ toString (mbTenths bytes % 10)

/-- The `detail` string built by each exception constructor. -/
def SpeechErr.detail : SpeechErr → String
  | .fileTooLarge b m =>
    "File size (" ++ renderMbTenths b ++ " MB) exceeds maximum allowed size ("
      ++ toString m ++ " MB)"
  | .unsupportedFileType ext allowed =>
    "File type " ++ ext ++ " is not supported. Allowed types: "
      ++ String.intercalate ", " allowed
  | .transcription d => d
  | .analysis d => d
  | .gigachat d => d

/-! ## Upload validation (`pipeline.py`: `_validate_file`, `_validate_file_size`) -/

/-- An inbound upload as seen by validation.  `size_attr`: outer `none` models
a file object without a `size` attribute, inner value the attribute (which
FastAPI may set to `None`).  `seek_tell_size = none` models an `OSError`
during the seek/tell measurement; `read_size = none` models an exception
while reading the stream for the size fallback. -/
structure UploadFile where
  filename : Option String
  size_attr : Option (Option Nat)
  seekable : Bool
  seek_tell_size : Option Nat
  read_size : Option Nat
deriving DecidableEq, Repr

/-- Default allowed extensions from `app/core/config.py`. -/
def defaultAllowedExtensions : List String :=
  [".mp4", ".mov", ".avi", ".mkv", ".webm", ".flv", ".wmv", ".m4v"]

/-- Default `max_file_size_mb` from `app/core/config.py`. -/
def defaultMaxFileSizeMb : Nat := 100

/-- `_validate_file_size`: three size-resolution fallbacks, then the limit
check.  Returning `.ok ()` with no size available models the logged skip. -/
def validate_file_size (maxMb : Nat) (f : UploadFile) : Except SpeechErr Unit :=
  let maxBytes := maxMb * 1024 * 1024
  let s1 : Option Nat :=
    match f.size_attr with
    | some v => v
    | none => none
  let s2 : Option Nat :=
    match s1 with
    | some n => some n
    | none => if f.seekable then f.seek_tell_size else none
  match s2 with
  | some n =>
    if maxBytes < n then .error (.fileTooLarge n maxMb) else .ok ()
  | none =>
    match f.read_size with
    | none => .ok ()
    | some n =>
      if maxBytes < n then .error (.fileTooLarge n maxMb) else .ok ()

/-- The size the three fallbacks of `_validate_file_size` resolve, `none` when
no method determines it. -/
def sizeResolution (f : UploadFile) : Option Nat :=
  match (match f.size_attr with | some v => v | none => none) with
  | some n => some n
  | none =>
    match (if f.seekable then f.seek_tell_size else none) with
    | some n => some n
    | none => f.read_size

/-- `_validate_file`: filename truthiness, extension allow-list, then size. -/
def validate_file (allowed : List String) (maxMb : Nat) (f : UploadFile) :
    Except SpeechErr Unit :=
  match f.filename with
  | none => .error (.unsupportedFileType "unknown" allowed)
  | some name =>
    if name.isEmpty then .error (.unsupportedFileType "unknown" allowed)
    else
      let ext := strToLower (pathSuffix name)
      if ext.isEmpty then .error (.unsupportedFileType "no extension" allowed)
      else if !(allowed.contains ext) then
        .error (.unsupportedFileType ext allowed)
      else validate_file_size maxMb f

/-! ## Analysis data model

Modelled from the spec: `app/models/analysis.py` and `app/models/gigachat.py`
are not under `src/`; the field lists below follow spec section 3 together
with the constructor calls in `pipeline.py` (lines 128-140) and
`gigachat.py` (lines 291-299) and the attribute accesses of
`_create_analysis_prompt`. -/

/-- A rule-based advice entry (accessed as `.title` / `.observation`). -/
structure Advice where
  title : String
  observation : String
deriving DecidableEq, Repr

/-- Filler-word statistics (items are word/count pairs). -/
structure FillerWordsStats where
  items : List (String × Nat)
  total : Nat
  per_100_words : Rat
deriving DecidableEq, Repr

/-- Pause statistics; `long_pauses` entries are (start, end, duration). -/
structure PausesStats where
  count : Nat
  avg_sec : Rat
  max_sec : Rat
  long_pauses : List (Rat × Rat × Rat)
deriving DecidableEq, Repr

/-- Phrase statistics. -/
structure PhrasesStats where
  count : Nat
  avg_words : Rat
  length_classification : String
  rhythm_variation : String
deriving DecidableEq, Repr

/-- Modelled from the spec: the narrative AI assessment (`GigaChatAnalysis`),
fields exactly as named in the fallback constructor call of
`gigachat.py` lines 291-299. -/
structure GigaChatAnalysis where
  overall_assessment : String
  strengths : List String
  areas_for_improvement : List String
  detailed_recommendations : List String
  key_insights : List String
  confidence_score : Rat
deriving DecidableEq, Repr

/-- Modelled from the spec: the immutable baseline aggregate
(`AnalysisResult`), fields exactly as named in the constructor call of
`pipeline.py` lines 128-140. -/
structure AnalysisResult where
  duration_sec : Rat
  speaking_time_sec : Rat
  speaking_ratio : Rat
  words_total : Nat
  words_per_minute : Rat
  filler_words : FillerWordsStats
  pauses : PausesStats
  phrases : PhrasesStats
  advice : List Advice
  transcript : String
  gigachat_analysis : Option GigaChatAnalysis := none
deriving DecidableEq, Repr

/-! ## Extraction-stage error mapping (`pipeline.py` lines 75-98) -/

/-- The exception (if any) raised by the audio-extraction collaborator:
`TimeoutException`, `RuntimeError` with its message, or any other exception. -/
inductive ExtractOutcome where
  | ok
  | timeout (msg : String)
  | runtimeError (msg : String)
  | otherError (msg : String)
deriving DecidableEq, Repr

/-- The timeout detail text raised by the pipeline. -/
def extractionTimeoutMsg : String :=
  "Audio extraction took too long. Video might be too long or corrupted."

/-- The `except` ladder of stage 1 of `analyze_upload`: which domain error
each extraction failure is re-raised as. -/
def mapExtractionFailure : ExtractOutcome → Option SpeechErr
  | .ok => none
  | .timeout _ => some (.analysis extractionTimeoutMsg)
  | .runtimeError m =>
    let ml := strToLower m
    if strContains ml "file does not exist" then
      some (.analysis "Video file is corrupted or empty")
    else if strContains ml "already exists" then
      some (.analysis "Temporary file conflict, please try again")
    else if strContains ml "ffmpeg command not found" then
      some (.analysis "FFmpeg is not installed or not in PATH")
    else some (.analysis ("Failed to extract audio: " ++ m))
  | .otherError m => some (.analysis ("Failed to extract audio: " ++ m))

/-! ## GigaChat client state (`gigachat.py`) -/

/-- Python truthiness of an optional string (`None` and `""` are falsy). -/
def pyTruthyStr : Option String → Bool
  | none => false
  | some s => !s.isEmpty

/-- Python truthiness of an optional number (`None` and `0` are falsy). -/
def pyTruthyNum : Option Int → Bool
  | none => false
  | some e => e != 0

/-- Mutable state of a `GigaChatClient`: the token cache, the `verify_ssl`
attribute, and the `verify` flag the current `httpx` transport was built
with. -/
structure ClientState where
  api_key : Option String
  access_token : Option String := none
  token_expires_at : Option Int := none
  verify_ssl : Bool
  client_verify : Bool
deriving DecidableEq, Repr

/-- The cached-token fast path of `authenticate` (lines 80-84): a truthy
token, a truthy expiry, and `time.time() < expires_at - 60`. -/
def tokenFresh (st : ClientState) (now : Int) : Bool :=
  pyTruthyStr st.access_token && pyTruthyNum st.token_expires_at &&
    decide (now < st.token_expires_at.getD 0 - 60)

/-- One response of the remote authentication endpoint: an HTTP response
with the JSON fields `access_token` / `expires_at`, or an `httpx`
request-level failure (`ConnectError` or another `RequestError`). -/
inductive AuthResp where
  | http (status : Nat) (access_token : Option String) (expires_at : Option Int)
  | connectError (msg : String)
  | requestError (msg : String)
deriving DecidableEq, Repr

/-- The Python exception escaping `authenticate`, if any. -/
inductive PyExc where
  | gigaChatError (msg : String)
  | httpStatusError (status : Nat)
  | requestError (msg : String)
deriving DecidableEq, Repr

/-- Which raise site of `authenticate` / `_retry_without_ssl` produced the
failure (a structured tag alongside the rendered message). -/
inductive AuthFailCause where
  | noApiKey
  | rateLimited
  | httpError (status : Nat)
  | noAccessToken
  | requestFailed (msg : String)
  | fallbackHttpError (status : Nat)
  | fallbackNoToken
  | fallbackRequestError (msg : String)
deriving DecidableEq, Repr

/-- Result of one `authenticate` call: the new client state, how many HTTP
requests were posted to the auth endpoint, the sleeps performed (seconds),
the escaping exception if any, and its structured cause. -/
structure AuthOutcome where
  state : ClientState
  posts : Nat
  sleeps : List Nat
  exc : Option PyExc
  cause : Option AuthFailCause
deriving DecidableEq, Repr

/-- The message of the rate-limit-specific error (`gigachat.py` line 128). -/
def rateLimitMsg : String :=
  "GigaChat rate limit exceeded. Please try again later."

/-- Rendering of `str(httpx.HTTPStatusError)` (a modelling of the external
library message; it mentions the status code, never "rate limit"). -/
def httpStatusText (s : Nat) : String :=
  "HTTP status error " ++ toString s ++ " for url auth"

/-- `_retry_without_ssl` (lines 156-183): rebuild the transport with
verification disabled, post the same request once, store the token; on
success record the permanent downgrade `verify_ssl = False`.  Exceptions
raised here escape unwrapped (they arise inside the outer `except` clause). -/
def retry_without_ssl (st : ClientState) (resp : AuthResp) : AuthOutcome :=
  let st0 := { st with client_verify := false }
  match resp with
  | .connectError m =>
    ⟨st0, 1, [], some (.requestError m), some (.fallbackRequestError m)⟩
  | .requestError m =>
    ⟨st0, 1, [], some (.requestError m), some (.fallbackRequestError m)⟩
  | .http s tok _exp =>
    if 400 ≤ s then
      ⟨st0, 1, [], some (.httpStatusError s), some (.fallbackHttpError s)⟩
    else
      let st1 := { st0 with access_token := tok }
      if !pyTruthyStr tok then
        ⟨st1, 1, [], some (.gigaChatError "Failed to obtain access token"),
          some .fallbackNoToken⟩
      else
        ⟨{ st1 with verify_ssl := false }, 1, [], none, none⟩

/-- The tail of the `try` block of `authenticate` (lines 122-141): the
status check, then token extraction.  Domain errors raised inside the `try`
are re-caught by `except Exception` and re-wrapped with the
"Authentication error: " label; `raise_for_status` only raises for 4xx/5xx. -/
def finishAuth (st : ClientState) (posts : Nat) (sleeps : List Nat)
    (status : Nat) (tok : Option String) (exp : Option Int) : AuthOutcome :=
  if status ≠ 200 ∧ status = 429 then
    ⟨st, posts, sleeps,
      some (.gigaChatError ("Authentication error: " ++ rateLimitMsg)),
      some .rateLimited⟩
  else if status ≠ 200 ∧ 400 ≤ status then
    ⟨st, posts, sleeps,
      some (.gigaChatError ("Authentication error: " ++ httpStatusText status)),
      some (.httpError status)⟩
  else
    let st1 := { st with access_token := tok, token_expires_at := exp }
    if !pyTruthyStr tok then
      ⟨st1, posts, sleeps,
        some (.gigaChatError "Authentication error: Failed to obtain access token"),
        some .noAccessToken⟩
    else ⟨st1, posts, sleeps, none, none⟩

/-- The `except httpx.RequestError` handler of `authenticate` (lines
143-150): retry without SSL verification only for a `ConnectError` whose
message mentions SSL while verification is enabled. -/
def authRequestError (st : ClientState) (posts : Nat) (sleeps : List Nat)
    (isConnect : Bool) (msg : String) (fallbackResp : AuthResp) : AuthOutcome :=
  if isConnect && strContains msg "SSL" && st.verify_ssl then
    let o := retry_without_ssl st fallbackResp
    { o with posts := posts + o.posts, sleeps := sleeps ++ o.sleeps }
  else
    ⟨st, posts, sleeps,
      some (.gigaChatError ("Authentication request failed: " ++ msg)),
      some (.requestFailed msg)⟩

/-- `authenticate` (lines 74-154).  `env n` is the response to the n-th
request posted to the authentication endpoint during this call. -/
def authenticate (st : ClientState) (now : Int) (env : Nat → AuthResp) :
    AuthOutcome :=
  if !pyTruthyStr st.api_key then
    ⟨st, 0, [], some (.gigaChatError "GigaChat API key not configured"),
      some .noApiKey⟩
  else if tokenFresh st now then
    ⟨st, 0, [], none, none⟩
  else
    match env 0 with
    | .connectError m => authRequestError st 1 [] true m (env 1)
    | .requestError m => authRequestError st 1 [] false m (env 1)
    | .http s tok exp =>
      if s = 429 then
        match env 1 with
        | .connectError m => authRequestError st 2 [30] true m (env 2)
        | .requestError m => authRequestError st 2 [30] false m (env 2)
        | .http s2 tok2 exp2 => finishAuth st 2 [30] s2 tok2 exp2
      else finishAuth st 1 [] s tok exp

/-! ## `analyze_speech` (`gigachat.py` lines 185-306) -/

/-- Behaviour of the completion endpoint: an HTTP response where the first
choice carries message content `content` (`none` models a missing/empty
`choices` list), or a request failure, or another exception while
processing. -/
inductive ChatResp where
  | http (status : Nat) (content : Option String)
  | requestError (msg : String)
  | otherError (msg : String)
deriving DecidableEq, Repr

/-- `re.search(r"..." , content, re.DOTALL)` with the greedy brace pattern
used at line 280: the span from the first opening brace to the last closing
brace, when the latter lies strictly after the former. -/
def braceSpan (content : String) : Option String :=
  let cs := content.toList
  match ffindChar '{' cs, rfindChar '}' cs with
  | some i, some j =>
    if i < j then some (String.mk ((cs.drop i).take (j + 1 - i))) else none
  | _, _ => none

/-- The degraded fallback `GigaChatAnalysis` built at lines 291-299 when the
reply is not parseable JSON. -/
def degraded (content : String) : GigaChatAnalysis :=
  { overall_assessment := strTake content 500
    strengths := ["Анализ выполнен, но в текстовом формате"]
    areas_for_improvement := []
    detailed_recommendations := ["Полный текст анализа: " ++ strTake content 1000]
    key_insights := ["Ответ GigaChat не в формате JSON"]
    confidence_score := 3 / 10 }

/-- The three-branch parse pipeline of lines 271-299.  `parse` models
`json.loads` followed by pydantic validation of the `GigaChatAnalysis`
shape (external library code), returning `none` on any parse/validation
failure. -/
def parseChatContent (parse : String → Option GigaChatAnalysis)
    (content : String) : GigaChatAnalysis :=
  match parse content with
  | some g => g
  | none =>
    match braceSpan content with
    | some sub =>
      match parse sub with
      | some g => g
      | none => degraded content
    | none => degraded content

/-- Decidable equality of `Except` values (no such instance ships with the
library). -/
instance {ε α : Type} [DecidableEq ε] [DecidableEq α] :
    DecidableEq (Except ε α) := fun a b =>
  match a, b with
  | .ok x, .ok y =>
    if h : x = y then .isTrue (congrArg Except.ok h)
    else .isFalse (fun he => h (Except.ok.inj he))
  | .error x, .error y =>
    if h : x = y then .isTrue (congrArg Except.error h)
    else .isFalse (fun he => h (Except.error.inj he))
  | .ok _, .error _ => .isFalse (fun he => Except.noConfusion he)
  | .error _, .ok _ => .isFalse (fun he => Except.noConfusion he)

/-- Result of one `analyze_speech` call: new state, number of requests
posted to the auth endpoint, and either the returned optional analysis or
an escaping exception. -/
structure SpeechOutcome where
  state : ClientState
  authPosts : Nat
  result : Except PyExc (Option GigaChatAnalysis)
deriving DecidableEq, Repr

/-- The completion-call part of `analyze_speech` (lines 210-306): every
failure there is absorbed into `None`; a 200 response with content goes
through the parse pipeline. -/
def analyzeSpeechChat (parse : String → Option GigaChatAnalysis)
    (st : ClientState) (posts : Nat) (chat : ChatResp) : SpeechOutcome :=
  match chat with
  | .requestError _ => ⟨st, posts, .ok none⟩
  | .otherError _ => ⟨st, posts, .ok none⟩
  | .http s content =>
    if s = 429 then ⟨st, posts, .ok none⟩
    else if s ≠ 200 then ⟨st, posts, .ok none⟩
    else
      match content with
      | none => ⟨st, posts, .ok none⟩
      | some c => ⟨st, posts, .ok (some (parseChatContent parse c))⟩

/-- `analyze_speech` (lines 185-306): authentication is attempted only when
no access token is cached; a `GigaChatError` from it is caught and turns the
call into `None`, any other exception escapes. -/
def analyze_speech (parse : String → Option GigaChatAnalysis)
    (enabled : Bool) (st : ClientState) (now : Int)
    (authEnv : Nat → AuthResp) (chat : ChatResp) : SpeechOutcome :=
  if !enabled then ⟨st, 0, .ok none⟩
  else if !pyTruthyStr st.access_token then
    let o := authenticate st now authEnv
    match o.exc with
    | some (.gigaChatError _) => ⟨o.state, o.posts, .ok none⟩
    | some e => ⟨o.state, o.posts, .error e⟩
    | none => analyzeSpeechChat parse o.state o.posts chat
  else analyzeSpeechChat parse st 0 chat

/-! ## The orchestration pipeline (`pipeline.py`: `analyze_upload`) -/

/-- The filesystem: the list of currently existing paths. -/
abbrev FS := List String

/-- Create a path (idempotent). -/
def addPath (fs : FS) (p : String) : FS :=
  if fs.contains p then fs else p :: fs

/-- `os.remove` guarded by `path.exists()` in `_cleanup_temp_files`; removal
itself is modelled as succeeding. -/
def removePath (fs : FS) (p : String) : FS :=
  fs.filter (fun q => q ≠ p)

/-- An error escaping `analyze_upload`: a domain exception, or a raw I/O
error (e.g. an `OSError` while the upload is being written to disk, which
the source does not catch). -/
inductive PipelineErr where
  | speech (e : SpeechErr)
  | ioError (msg : String)
deriving DecidableEq, Repr

/-- The behaviour of the collaborators during one `analyze_upload` call.
`failedExtractLeavesAudio`: whether a failing extraction left a partial
audio file behind.  `augOutcome` is what `gigachat_client.analyze_speech`
returned or raised. -/
structure PipelineEnv where
  file : UploadFile
  saveOk : Bool
  extraction : ExtractOutcome
  failedExtractLeavesAudio : Bool
  transcribeOk : Bool
  transcribeErr : String
  analysisOut : Option AnalysisResult
  analysisErr : String
  hasGigaClient : Bool
  gigaEnabled : Bool
  augOutcome : Except PyExc (Option GigaChatAnalysis)
deriving Repr

/-- The field-by-field rebuild of `AnalysisResult` at `pipeline.py` lines
128-140, attaching the GigaChat analysis. -/
def rebuildWithGiga (r : AnalysisResult) (g : GigaChatAnalysis) : AnalysisResult :=
  { duration_sec := r.duration_sec
    speaking_time_sec := r.speaking_time_sec
    speaking_ratio := r.speaking_ratio
    words_total := r.words_total
    words_per_minute := r.words_per_minute
    filler_words := r.filler_words
    pauses := r.pauses
    phrases := r.phrases
    advice := r.advice
    transcript := r.transcript
    gigachat_analysis := some g }

/-- Stage 4 of `analyze_upload` (lines 118-150): the soft augmentation step.
A raised exception or a `None` result leaves the baseline untouched. -/
def pipelineAugment (hasClient enabled : Bool)
    (aug : Except PyExc (Option GigaChatAnalysis)) (r : AnalysisResult) :
    AnalysisResult :=
  if hasClient && enabled then
    match aug with
    | .ok (some g) => rebuildWithGiga r g
    | .ok none => r
    | .error _ => r
  else r

/-- `analyze_upload` (lines 54-154) over the filesystem model.  `videoPath`
stands for the fresh temporary file name chosen by `tempfile`; the derived
audio path is `wavPath videoPath`.  Note the source creates the temp file
and saves the upload BEFORE entering the `try`/`finally`; only the stages
from extraction onward are covered by the cleanup. -/
def analyze_upload (allowed : List String) (maxMb : Nat) (env : PipelineEnv)
    (videoPath : String) (fs0 : FS) :
    Except PipelineErr AnalysisResult × FS :=
  match validate_file allowed maxMb env.file with
  | .error e => (.error (.speech e), fs0)
  | .ok _ =>
    let fs1 := addPath fs0 videoPath
    if !env.saveOk then (.error (.ioError "failed to save upload"), fs1)
    else
      let audioPath := wavPath videoPath
      let step : Except PipelineErr AnalysisResult × FS :=
        match mapExtractionFailure env.extraction with
        | some e =>
          (.error (.speech e),
            if env.failedExtractLeavesAudio then addPath fs1 audioPath else fs1)
        | none =>
          let fs2 := addPath fs1 audioPath
          if !env.transcribeOk then
            (.error (.speech (.transcription
              ("Failed to transcribe audio: " ++ env.transcribeErr))), fs2)
          else
            match env.analysisOut with
            | none =>
              (.error (.speech (.analysis
                ("Failed to analyze speech: " ++ env.analysisErr))), fs2)
            | some r =>
              (.ok (pipelineAugment env.hasGigaClient env.gigaEnabled
                env.augOutcome r), fs2)
      (step.1, removePath (removePath step.2 videoPath) audioPath)

/-! ## Concrete inputs used by witnesses and counterexamples -/

/-- A 5 MB `speech.mp4` upload that passes validation. -/
def fileOkSmall : UploadFile :=
  { filename := some "speech.mp4", size_attr := some (some 5242880),
    seekable := true, seek_tell_size := some 5242880, read_size := some 5242880 }

/-- A concrete baseline analysis result. -/
def baselineR : AnalysisResult :=
  { duration_sec := 60, speaking_time_sec := 45, speaking_ratio := 3 / 4,
    words_total := 120, words_per_minute := 120,
    filler_words := { items := [("ну", 2)], total := 2, per_100_words := 5 / 3 },
    pauses := { count := 3, avg_sec := 1, max_sec := 2, long_pauses := [(1, 3, 2)] },
    phrases := { count := 10, avg_words := 12, length_classification := "средние",
                 rhythm_variation := "разнообразный" },
    advice := [⟨"Темп", "в норме"⟩],
    transcript := "привет всем" }

/-- A run where writing the upload to the temp file fails. -/
def envSaveFail : PipelineEnv :=
  { file := fileOkSmall, saveOk := false, extraction := .ok,
    failedExtractLeavesAudio := false, transcribeOk := true, transcribeErr := "",
    analysisOut := some baselineR, analysisErr := "", hasGigaClient := false,
    gigaEnabled := false, augOutcome := .ok none }

/-- A run where extraction times out after its 300 s bound. -/
def envTimeout : PipelineEnv :=
  { envSaveFail with
    saveOk := true,
    extraction := .timeout "Command timed out after 300 seconds" }

/-- A run where the metric-analysis collaborator raises. -/
def envAnalyzeFail : PipelineEnv :=
  { envSaveFail with
    saveOk := true,
    analysisOut := none,
    analysisErr := "boom" }

/-- A fresh client with a configured API key and SSL verification enabled. -/
def st0 : ClientState :=
  { api_key := some "key", verify_ssl := true, client_verify := true }

/-- A client holding a cached token that expired at epoch second 100. -/
def stExpired : ClientState :=
  { api_key := some "key", access_token := some "tok",
    token_expires_at := some 100, verify_ssl := true, client_verify := true }

/-- A parse oracle on which strict and tolerant JSON parsing always fail. -/
def noParse : String → Option GigaChatAnalysis := fun _ => none

/-- Auth endpoint that always answers 200 with a token and a far expiry. -/
def authEnvOk : Nat → AuthResp := fun _ => .http 200 (some "tok2") (some 4000)

/-- Auth endpoint that always answers 429. -/
def env429 : Nat → AuthResp := fun _ => .http 429 none none

/-- Auth endpoint answering 429 first, then 500. -/
def env429then500 : Nat → AuthResp := fun n =>
  if n = 0 then .http 429 none none else .http 500 none none

/-- Auth endpoint whose response is a 200 carrying an `expires_at` but no
`access_token` (authentication then fails but the client keeps the stored
expiry). -/
def envNoTokenButExpiry : Nat → AuthResp := fun _ => .http 200 none (some 1000)

/-- Auth endpoint raising an SSL connect error first, then answering 200
with a token and no expiry (the fallback request). -/
def envSslThenOk : Nat → AuthResp := fun n =>
  if n = 0 then .connectError "SSL: CERTIFICATE_VERIFY_FAILED" else .http 200 (some "T2") none

/-- Client state after authenticating `st0` against `envNoTokenButExpiry`. -/
def stA : ClientState := (authenticate st0 0 envNoTokenButExpiry).state

/-- Client state after then authenticating `stA` against `envSslThenOk`. -/
def stB : ClientState := (authenticate stA 1 envSslThenOk).state

/-- A completion response with a non-JSON text reply. -/
def chatReply : ChatResp := .http 200 (some "reply")

/-- A pipeline run whose augmentation call hit 429 on both authentication
attempts (the outcome is what `analyze_speech` returns on that trace). -/
def envC4 : PipelineEnv :=
  { file := fileOkSmall, saveOk := true, extraction := .ok,
    failedExtractLeavesAudio := false, transcribeOk := true, transcribeErr := "",
    analysisOut := some baselineR, analysisErr := "", hasGigaClient := true,
    gigaEnabled := true,
    augOutcome := (analyze_speech noParse true st0 0 env429 chatReply).result }

/-- A concrete augmentation value. -/
def gigaOk : GigaChatAnalysis :=
  { overall_assessment := "хорошо", strengths := ["темп"],
    areas_for_improvement := ["паузы"], detailed_recommendations := ["пауза"],
    key_insights := ["ритм"], confidence_score := 9 / 10 }

/-- A pipeline run whose augmentation succeeded with `gigaOk`. -/
def envC5 : PipelineEnv := { envC4 with augOutcome := .ok (some gigaOk) }

/-- A 150 MB `huge.mp4` upload (over the 100 MB limit). -/
def fileHuge : UploadFile :=
  { filename := some "huge.mp4", size_attr := some (some (150 * 1048576)),
    seekable := true, seek_tell_size := some (150 * 1048576),
    read_size := some (150 * 1048576) }

/-- An upload whose size no fallback can determine. -/
def fileNoSize : UploadFile :=
  { filename := some "speech.mp4", size_attr := some none, seekable := false,
    seek_tell_size := none, read_size := none }

/-- A `notes.txt` upload (disallowed extension). -/
def fileTxt : UploadFile :=
  { filename := some "notes.txt", size_attr := some (some 10),
    seekable := true, seek_tell_size := some 10, read_size := some 10 }

/-! ## Helper lemmas -/

theorem not_mem_removePath_self (fs : FS) (p : String) : p ∉ removePath fs p := by
  intro h
  have hne := (List.mem_filter.mp h).2
  simp at hne

theorem not_mem_removePath_of_not_mem (fs : FS) (p q : String) (h : p ∉ fs) :
    p ∉ removePath fs q := by
  intro hmem
  exact h (List.mem_filter.mp hmem).1

theorem retry_without_ssl_posts (st : ClientState) (resp : AuthResp) :
    (retry_without_ssl st resp).posts = 1 := by
  rcases resp with ⟨s, t, e⟩ | m | m
  · dsimp only [retry_without_ssl]
    split
    · rfl
    · split <;> rfl
  · rfl
  · rfl

theorem retry_without_ssl_client_verify (st : ClientState) (resp : AuthResp) :
    (retry_without_ssl st resp).state.client_verify = false := by
  rcases resp with ⟨s, t, e⟩ | m | m
  · dsimp only [retry_without_ssl]
    split
    · rfl
    · split <;> rfl
  · rfl
  · rfl

theorem retry_without_ssl_expires (st : ClientState) (resp : AuthResp) :
    (retry_without_ssl st resp).state.token_expires_at = st.token_expires_at := by
  rcases resp with ⟨s, t, e⟩ | m | m
  · dsimp only [retry_without_ssl]
    split
    · rfl
    · split <;> rfl
  · rfl
  · rfl

theorem finishAuth_state_verify (st : ClientState) (p : Nat) (sl : List Nat)
    (s : Nat) (t : Option String) (e : Option Int) :
    (finishAuth st p sl s t e).state.verify_ssl = st.verify_ssl ∧
    (finishAuth st p sl s t e).state.client_verify = st.client_verify := by
  dsimp only [finishAuth]
  split
  · exact ⟨rfl, rfl⟩
  · split
    · exact ⟨rfl, rfl⟩
    · split <;> exact ⟨rfl, rfl⟩

theorem finishAuth_posts_sleeps (st : ClientState) (p : Nat) (sl : List Nat)
    (s : Nat) (t : Option String) (e : Option Int) :
    (finishAuth st p sl s t e).posts = p ∧ (finishAuth st p sl s t e).sleeps = sl := by
  dsimp only [finishAuth]
  split
  · exact ⟨rfl, rfl⟩
  · split
    · exact ⟨rfl, rfl⟩
    · split <;> exact ⟨rfl, rfl⟩

theorem authRequestError_state_of_no_ssl (st : ClientState) (p : Nat)
    (sl : List Nat) (ic : Bool) (m : String) (fb : AuthResp)
    (h : st.verify_ssl = false) :
    (authRequestError st p sl ic m fb).state = st := by
  dsimp only [authRequestError]
  rw [h]
  simp

theorem authRequestError_client_verify (st : ClientState) (p : Nat)
    (sl : List Nat) (ic : Bool) (m : String) (fb : AuthResp)
    (h : st.client_verify = false) :
    (authRequestError st p sl ic m fb).state.client_verify = false := by
  dsimp only [authRequestError]
  split
  · exact retry_without_ssl_client_verify st fb
  · exact h

theorem authRequestError_posts_ge (st : ClientState) (p : Nat) (sl : List Nat)
    (ic : Bool) (m : String) (fb : AuthResp) :
    p ≤ (authRequestError st p sl ic m fb).posts := by
  dsimp only [authRequestError]
  split
  · exact Nat.le_add_right p _
  · exact Nat.le_refl p

theorem analyzeSpeechChat_state_posts (parse : String → Option GigaChatAnalysis)
    (st : ClientState) (posts : Nat) (chat : ChatResp) :
    (analyzeSpeechChat parse st posts chat).state = st ∧
    (analyzeSpeechChat parse st posts chat).authPosts = posts := by
  rcases chat with ⟨s, c⟩ | m | m
  · dsimp only [analyzeSpeechChat]
    split
    · exact ⟨rfl, rfl⟩
    · split
      · exact ⟨rfl, rfl⟩
      · rcases c with _ | c <;> exact ⟨rfl, rfl⟩
  · exact ⟨rfl, rfl⟩
  · exact ⟨rfl, rfl⟩

theorem authenticate_verify_ssl_false (st : ClientState) (now : Int)
    (env : Nat → AuthResp) (h : st.verify_ssl = false) :
    (authenticate st now env).state.verify_ssl = false := by
  dsimp only [authenticate]
  split
  · exact h
  · split
    · exact h
    · rcases env 0 with ⟨s, t, e⟩ | m | m
      · dsimp only
        split
        · rcases env 1 with ⟨s2, t2, e2⟩ | m2 | m2
          · exact (finishAuth_state_verify st 2 [30] s2 t2 e2).1.trans h
          · rw [authRequestError_state_of_no_ssl st 2 [30] true m2 (env 2) h]
            exact h
          · rw [authRequestError_state_of_no_ssl st 2 [30] false m2 (env 2) h]
            exact h
        · exact (finishAuth_state_verify st 1 [] s t e).1.trans h
      · rw [authRequestError_state_of_no_ssl st 1 [] true m (env 1) h]
        exact h
      · rw [authRequestError_state_of_no_ssl st 1 [] false m (env 1) h]
        exact h

theorem authenticate_client_verify_false (st : ClientState) (now : Int)
    (env : Nat → AuthResp) (h : st.client_verify = false) :
    (authenticate st now env).state.client_verify = false := by
  dsimp only [authenticate]
  split
  · exact h
  · split
    · exact h
    · rcases env 0 with ⟨s, t, e⟩ | m | m
      · dsimp only
        split
        · rcases env 1 with ⟨s2, t2, e2⟩ | m2 | m2
          · exact (finishAuth_state_verify st 2 [30] s2 t2 e2).2.trans h
          · exact authRequestError_client_verify st 2 [30] true m2 (env 2) h
          · exact authRequestError_client_verify st 2 [30] false m2 (env 2) h
        · exact (finishAuth_state_verify st 1 [] s t e).2.trans h
      · exact authRequestError_client_verify st 1 [] true m (env 1) h
      · exact authRequestError_client_verify st 1 [] false m (env 1) h

theorem authenticate_posts_pos (st : ClientState) (now : Int)
    (env : Nat → AuthResp) (hk : pyTruthyStr st.api_key = true)
    (hf : tokenFresh st now = false) :
    1 ≤ (authenticate st now env).posts := by
  dsimp only [authenticate]
  rw [hk, hf]
  simp only [Bool.not_true, Bool.false_eq_true, if_false]
  rcases env 0 with ⟨s, t, e⟩ | m | m
  · dsimp only
    split
    · rcases env 1 with ⟨s2, t2, e2⟩ | m2 | m2
      · rw [(finishAuth_posts_sleeps st 2 [30] s2 t2 e2).1]
        omega
      · exact le_trans (by omega) (authRequestError_posts_ge st 2 [30] true m2 (env 2))
      · exact le_trans (by omega) (authRequestError_posts_ge st 2 [30] false m2 (env 2))
    · rw [(finishAuth_posts_sleeps st 1 [] s t e).1]
  · exact authRequestError_posts_ge st 1 [] true m (env 1)
  · exact authRequestError_posts_ge st 1 [] false m (env 1)

theorem pipelineAugment_no_aug (hc en : Bool)
    (aug : Except PyExc (Option GigaChatAnalysis)) (r : AnalysisResult)
    (h : ∀ g, aug ≠ .ok (some g)) : pipelineAugment hc en aug r = r := by
  dsimp only [pipelineAugment]
  split
  · cases aug with
    | error e => rfl
    | ok g =>
      cases g with
      | none => rfl
      | some g => exact absurd rfl (h g)
  · rfl

theorem finishAuth_429 (st : ClientState) (p : Nat) (sl : List Nat)
    (t : Option String) (e : Option Int) :
    finishAuth st p sl 429 t e =
      ⟨st, p, sl, some (.gigaChatError ("Authentication error: " ++ rateLimitMsg)),
        some .rateLimited⟩ := by
  dsimp only [finishAuth]
  rw [if_pos ⟨by decide, rfl⟩]

theorem authenticate_double429 (st : ClientState) (now : Int)
    (env : Nat → AuthResp) (htok : pyTruthyStr st.access_token = false)
    (h0 : env 0 = .http 429 none none) (h1 : env 1 = .http 429 none none) :
    ∃ m, (authenticate st now env).exc = some (.gigaChatError m) := by
  have hfresh : tokenFresh st now = false := by
    simp [tokenFresh, htok]
  dsimp only [authenticate]
  cases hk : pyTruthyStr st.api_key with
  | false => exact ⟨_, rfl⟩
  | true =>
    rw [hfresh, h0, h1]
    exact ⟨_, rfl⟩

theorem validate_file_size_eq (maxMb : Nat) (f : UploadFile) :
    validate_file_size maxMb f = (match sizeResolution f with
      | some n =>
        if maxMb * 1024 * 1024 < n then
          Except.error (SpeechErr.fileTooLarge n maxMb)
        else Except.ok ()
      | none => Except.ok ()) := by
  rcases f with ⟨fn, sa, sk, sts, rs⟩
  rcases sa with _ | v
  · rcases sk <;> rcases sts with _ | m <;> rcases rs with _ | k <;> rfl
  · rcases v with _ | n
    · rcases sk <;> rcases sts with _ | m <;> rcases rs with _ | k <;> rfl
    · rfl

/-! ## Claim theorems -/

/-- C6: for every upload whose size is resolved (size attribute, seek-to-end,
or full read), a size above the configured maximum fails validation with
`FileTooLargeError` carrying the measured size (rendered in MB to one
decimal) and the limit; a size at or below the maximum passes the size
check; and when no method determines the size, size validation does not
raise while the extension check still applies. -/
theorem C6_size_validation :
    (∀ (maxMb : Nat) (f : UploadFile) (n : Nat), sizeResolution f = some n →
      maxMb * 1024 * 1024 < n →
      validate_file_size maxMb f = .error (.fileTooLarge n maxMb)) ∧
    (∀ (maxMb : Nat) (f : UploadFile) (n : Nat), sizeResolution f = some n →
      n ≤ maxMb * 1024 * 1024 → validate_file_size maxMb f = .ok ()) ∧
    (∀ (maxMb : Nat) (f : UploadFile), sizeResolution f = none →
      validate_file_size maxMb f = .ok ()) ∧
    (∀ (allowed : List String) (maxMb : Nat) (f : UploadFile) (nm : String),
      f.filename = some nm → nm.isEmpty = false →
      (strToLower (pathSuffix nm)).isEmpty = false →
      allowed.contains (strToLower (pathSuffix nm)) = false →
      validate_file allowed maxMb f =
        .error (.unsupportedFileType (strToLower (pathSuffix nm)) allowed)) := by
  refine ⟨?_, ?_, ?_, ?_⟩
  · intro maxMb f n hres hlt
    rw [validate_file_size_eq, hres]
    exact if_pos hlt
  · intro maxMb f n hres hle
    rw [validate_file_size_eq, hres]
    exact if_neg (Nat.not_lt.mpr hle)
  · intro maxMb f hres
    rw [validate_file_size_eq, hres]
  · intro allowed maxMb f nm hfn hne hext hcon
    dsimp only [validate_file]
    rw [hfn]
    simp only [hne, hext, hcon, Bool.false_eq_true, if_false, Bool.not_false, if_true]

/-- Witness for C6 at concrete inputs: a 150 MB upload against the 100 MB
default limit fails with the measured size (shown as "150.0" MB), a 5 MB
upload passes, an upload of undeterminable size passes the size check, and
`notes.txt` fails the extension check. -/
theorem C6_size_validation_witness :
    validate_file_size 100 fileHuge = .error (.fileTooLarge (150 * 1048576) 100) ∧
    renderMbTenths (150 * 1048576) = "150.0" ∧
    validate_file_size 100 fileOkSmall = .ok () ∧
    validate_file_size 100 fileNoSize = .ok () ∧
    strToLower (pathSuffix "notes.txt") = ".txt" ∧
    validate_file defaultAllowedExtensions 100 fileTxt =
      .error (.unsupportedFileType (strToLower (pathSuffix "notes.txt"))
        defaultAllowedExtensions) := by
  refine ⟨?_, by decide, ?_, ?_, by decide, ?_⟩
  · exact C6_size_validation.1 100 fileHuge (150 * 1048576) (by decide) (by decide)
  · exact C6_size_validation.2.1 100 fileOkSmall 5242880 (by decide) (by decide)
  · exact C6_size_validation.2.2.1 100 fileNoSize (by decide)
  · exact C6_size_validation.2.2.2 defaultAllowedExtensions 100 fileTxt "notes.txt"
      rfl (by decide) (by decide) (by decide)

/-- C4: whenever the augmentation step raises any exception (authentication
failure, double rate-limit, network failure) or yields no augmentation,
`analyze_upload` still returns normally and the returned result is the very
baseline value, its augmentation field untouched; additionally a 429 on both
authentication attempts makes `analyze_speech` return `None` rather than
raise. -/
theorem C4_augment_failure_preserves_baseline :
    (∀ (hc en : Bool) (e : PyExc) (r : AnalysisResult),
      pipelineAugment hc en (.error e) r = r) ∧
    (∀ (hc en : Bool) (r : AnalysisResult), pipelineAugment hc en (.ok none) r = r) ∧
    (∀ (parse : String → Option GigaChatAnalysis) (st : ClientState) (now : Int)
      (aEnv : Nat → AuthResp) (chat : ChatResp),
      pyTruthyStr st.access_token = false →
      aEnv 0 = .http 429 none none → aEnv 1 = .http 429 none none →
      (analyze_speech parse true st now aEnv chat).result = .ok none) ∧
    (∀ (allowed : List String) (maxMb : Nat) (env : PipelineEnv)
      (videoPath : String) (fs0 : FS) (r : AnalysisResult),
      validate_file allowed maxMb env.file = .ok () → env.saveOk = true →
      env.extraction = .ok → env.transcribeOk = true → env.analysisOut = some r →
      (∀ g, env.augOutcome ≠ .ok (some g)) →
      (analyze_upload allowed maxMb env videoPath fs0).1 = .ok r) := by
  refine ⟨?_, ?_, ?_, ?_⟩
  · intro hc en e r
    dsimp only [pipelineAugment]
    split <;> rfl
  · intro hc en r
    dsimp only [pipelineAugment]
    split <;> rfl
  · intro parse st now aEnv chat htok h0 h1
    obtain ⟨m, hm⟩ := authenticate_double429 st now aEnv htok h0 h1
    dsimp only [analyze_speech]
    rw [htok]
    simp only [Bool.not_false, if_true, hm]
    rfl
  · intro allowed maxMb env videoPath fs0 r hv hs he htr ha haug
    dsimp only [analyze_upload]
    rw [hv, hs]
    simp only [Bool.not_true, Bool.false_eq_true, if_false]
    rw [he]
    dsimp only [mapExtractionFailure]
    rw [htr]
    simp only [Bool.not_true, Bool.false_eq_true, if_false]
    rw [ha]
    dsimp only
    exact congrArg Except.ok (pipelineAugment_no_aug _ _ _ _ haug)

/-- Witness for C4: the pipeline run whose augmentation call saw 429 on both
authentication attempts still returns the baseline result, and that
`analyze_speech` trace itself returned `None`. -/
theorem C4_augment_failure_preserves_baseline_witness :
    (analyze_upload defaultAllowedExtensions 100 envC4 "/tmp/upload.mp4" []).1 =
      .ok baselineR ∧
    (analyze_speech noParse true st0 0 env429 chatReply).result = .ok none := by
  constructor
  · refine C4_augment_failure_preserves_baseline.2.2.2 defaultAllowedExtensions 100
      envC4 "/tmp/upload.mp4" [] baselineR (by decide) rfl rfl rfl rfl ?_
    intro g h
    rw [show envC4.augOutcome = .ok none from by decide] at h
    exact Option.noConfusion (Except.ok.inj h)
  · exact C4_augment_failure_preserves_baseline.2.2.1 noParse st0 0 env429 chatReply
      rfl rfl rfl

/-- C5: a successful augmentation yields a result equal to the baseline in
every non-augmentation field, with only the augmentation field changed from
absent to present. -/
theorem C5_augment_success_only_adds_augmentation :
    (∀ (r : AnalysisResult) (g : GigaChatAnalysis),
      rebuildWithGiga r g = { r with gigachat_analysis := some g }) ∧
    (∀ (r : AnalysisResult) (g : GigaChatAnalysis),
      (rebuildWithGiga r g).duration_sec = r.duration_sec ∧
      (rebuildWithGiga r g).speaking_time_sec = r.speaking_time_sec ∧
      (rebuildWithGiga r g).speaking_ratio = r.speaking_ratio ∧
      (rebuildWithGiga r g).words_total = r.words_total ∧
      (rebuildWithGiga r g).words_per_minute = r.words_per_minute ∧
      (rebuildWithGiga r g).filler_words = r.filler_words ∧
      (rebuildWithGiga r g).pauses = r.pauses ∧
      (rebuildWithGiga r g).phrases = r.phrases ∧
      (rebuildWithGiga r g).advice = r.advice ∧
      (rebuildWithGiga r g).transcript = r.transcript ∧
      (rebuildWithGiga r g).gigachat_analysis = some g) ∧
    (∀ (r : AnalysisResult) (g : GigaChatAnalysis), r.gigachat_analysis = none →
      (rebuildWithGiga r g).gigachat_analysis = some g ∧
      some g ≠ (none : Option GigaChatAnalysis)) ∧
    (∀ (hc en : Bool) (r : AnalysisResult) (g : GigaChatAnalysis),
      hc = true → en = true →
      pipelineAugment hc en (.ok (some g)) r = { r with gigachat_analysis := some g }) ∧
    (∀ (allowed : List String) (maxMb : Nat) (env : PipelineEnv)
      (videoPath : String) (fs0 : FS) (r : AnalysisResult) (g : GigaChatAnalysis),
      validate_file allowed maxMb env.file = .ok () → env.saveOk = true →
      env.extraction = .ok → env.transcribeOk = true → env.analysisOut = some r →
      env.hasGigaClient = true → env.gigaEnabled = true →
      env.augOutcome = .ok (some g) →
      (analyze_upload allowed maxMb env videoPath fs0).1 =
        .ok { r with gigachat_analysis := some g }) := by
  refine ⟨?_, ?_, ?_, ?_, ?_⟩
  · intro r g
    cases r
    rfl
  · intro r g
    exact ⟨rfl, rfl, rfl, rfl, rfl, rfl, rfl, rfl, rfl, rfl, rfl⟩
  · intro r g _
    exact ⟨rfl, fun h => Option.noConfusion h⟩
  · intro hc en r g hhc hen
    subst hhc hen
    cases r
    rfl
  · intro allowed maxMb env videoPath fs0 r g hv hs he htr ha hhc hen haug
    dsimp only [analyze_upload]
    rw [hv, hs]
    simp only [Bool.not_true, Bool.false_eq_true, if_false]
    rw [he]
    dsimp only [mapExtractionFailure]
    rw [htr]
    simp only [Bool.not_true, Bool.false_eq_true, if_false]
    rw [ha]
    dsimp only
    rw [haug, hhc, hen]
    cases r
    rfl

/-- Witness for C5: the run `envC5`, whose augmentation succeeded with
`gigaOk`, returns the baseline with only the augmentation field set. -/
theorem C5_augment_success_only_adds_augmentation_witness :
    (analyze_upload defaultAllowedExtensions 100 envC5 "/tmp/upload.mp4" []).1 =
      .ok { baselineR with gigachat_analysis := some gigaOk } ∧
    baselineR.gigachat_analysis = none := by
  refine ⟨?_, rfl⟩
  exact C5_augment_success_only_adds_augmentation.2.2.2.2 defaultAllowedExtensions
    100 envC5 "/tmp/upload.mp4" [] baselineR gigaOk (by decide) rfl rfl rfl rfl
    rfl rfl rfl

/-- C1 counterexample: the claim promises that after `analyze_upload` raises,
the temporary video path no longer exists, for a failure injected at ANY
stage including saving the upload.  But the source creates the temp file and
saves the upload before entering the `try`/`finally`, so when the save
raises, the cleanup never runs: here a run that passes validation and fails
at the saving stage leaves the video temp file on disk. -/
theorem C1_counterexample :
    validate_file defaultAllowedExtensions 100 envSaveFail.file = .ok () ∧
    envSaveFail.saveOk = false ∧
    "/tmp/upload.mp4" ∈
      (analyze_upload defaultAllowedExtensions 100 envSaveFail
        "/tmp/upload.mp4" []).2 := by
  decide

/-- C1 (amended): for every run that passes validation AND completes saving
the upload, both the video temp path and the derived audio temp path are
absent from the filesystem when `analyze_upload` returns or raises — on
every exit path (extraction, transcription, analysis or augmentation
failure, and success).  A failure while saving the upload is the one exit
path that leaks the video temp file (see the counterexample). -/
theorem C1_cleanup_after_save (allowed : List String) (maxMb : Nat)
    (env : PipelineEnv) (videoPath : String) (fs0 : FS)
    (hv : validate_file allowed maxMb env.file = .ok ())
    (hs : env.saveOk = true) :
    videoPath ∉ (analyze_upload allowed maxMb env videoPath fs0).2 ∧
    wavPath videoPath ∉ (analyze_upload allowed maxMb env videoPath fs0).2 := by
  dsimp only [analyze_upload]
  rw [hv, hs]
  simp only [Bool.not_true, Bool.false_eq_true, if_false]
  exact ⟨not_mem_removePath_of_not_mem _ _ _ (not_mem_removePath_self _ _),
    not_mem_removePath_self _ _⟩

/-- Witness for C1: a full successful run (including augmentation) removes
both temp paths, even with an unrelated pre-existing file on disk. -/
theorem C1_cleanup_after_save_witness :
    "/tmp/upload.mp4" ∉
      (analyze_upload defaultAllowedExtensions 100 envC5 "/tmp/upload.mp4"
        ["/tmp/other.bin"]).2 ∧
    wavPath "/tmp/upload.mp4" ∉
      (analyze_upload defaultAllowedExtensions 100 envC5 "/tmp/upload.mp4"
        ["/tmp/other.bin"]).2 :=
  C1_cleanup_after_save defaultAllowedExtensions 100 envC5 "/tmp/upload.mp4"
    ["/tmp/other.bin"] (by decide) rfl

/-- C2 counterexample: the claim promises extraction failures surface as a
domain `ExtractionError` distinct from other error kinds.  The repository
defines no `ExtractionError` class at all (`app/core/exceptions.py` has only
FileValidation/Transcription/Analysis/GigaChat kinds); an extraction timeout
is raised as `AnalysisError` — the same exception class the pipeline uses
for metric-analysis failures — not an extraction-specific kind. -/
theorem C2_counterexample :
    (analyze_upload defaultAllowedExtensions 100 envTimeout
      "/tmp/upload.mp4" []).1 = .error (.speech (.analysis extractionTimeoutMsg)) ∧
    SpeechErr.kindName (.analysis extractionTimeoutMsg) = "AnalysisError" ∧
    (analyze_upload defaultAllowedExtensions 100 envAnalyzeFail
      "/tmp/upload.mp4" []).1 =
      .error (.speech (.analysis "Failed to analyze speech: boom")) ∧
    SpeechErr.kindName (.analysis "Failed to analyze speech: boom") =
      SpeechErr.kindName (.analysis extractionTimeoutMsg) := by
  refine ⟨by decide, rfl, by decide, rfl⟩

/-- C2 (amended): every failure of the audio-extraction stage — timeout,
tool-not-found, non-zero exit, empty or missing output — is surfaced by the
pipeline as a domain `AnalysisError` wrapping a human-readable cause; an
extraction timeout makes `analyze_upload` fail with the timeout-flavoured
message "Audio extraction took too long...". -/
theorem C2_extraction_failures_map_to_analysis_error (o : ExtractOutcome)
    (ho : o ≠ .ok) :
    (∃ m, mapExtractionFailure o = some (.analysis m)) ∧
    (∀ m, mapExtractionFailure (.timeout m) = some (.analysis extractionTimeoutMsg)) ∧
    (∀ (allowed : List String) (maxMb : Nat) (env : PipelineEnv)
      (videoPath : String) (fs0 : FS) (m : String),
      validate_file allowed maxMb env.file = .ok () → env.saveOk = true →
      env.extraction = .timeout m →
      (analyze_upload allowed maxMb env videoPath fs0).1 =
        .error (.speech (.analysis extractionTimeoutMsg))) := by
  refine ⟨?_, fun m => rfl, ?_⟩
  · cases o with
    | ok => exact absurd rfl ho
    | timeout m => exact ⟨_, rfl⟩
    | runtimeError m =>
      dsimp only [mapExtractionFailure]
      by_cases h1 : strContains (strToLower m) "file does not exist" = true
      · simp only [h1, if_true]
        exact ⟨_, rfl⟩
      · by_cases h2 : strContains (strToLower m) "already exists" = true
        · simp only [h1, h2, if_true, if_false]
          exact ⟨_, rfl⟩
        · by_cases h3 : strContains (strToLower m) "ffmpeg command not found" = true
          · simp only [h1, h2, h3, if_true, if_false]
            exact ⟨_, rfl⟩
          · simp only [h1, h2, h3, if_false]
            exact ⟨_, rfl⟩
    | otherError m => exact ⟨_, rfl⟩
  · intro allowed maxMb env videoPath fs0 m hv hs he
    dsimp only [analyze_upload]
    rw [hv, hs]
    simp only [Bool.not_true, Bool.false_eq_true, if_false]
    rw [he]
    rfl

/-- Witness for C2: a tool-not-found runtime error maps to an AnalysisError,
and a concrete timeout run fails with the timeout message. -/
theorem C2_extraction_failures_map_to_analysis_error_witness :
    (∃ m, mapExtractionFailure (.runtimeError "ffmpeg command not found") =
      some (.analysis m)) ∧
    (analyze_upload defaultAllowedExtensions 100 envTimeout
      "/tmp/upload.mp4" []).1 = .error (.speech (.analysis extractionTimeoutMsg)) := by
  constructor
  · exact (C2_extraction_failures_map_to_analysis_error
      (.runtimeError "ffmpeg command not found") (by decide)).1
  · exact (C2_extraction_failures_map_to_analysis_error
      (.timeout "Command timed out after 300 seconds") (by decide)).2.2
      defaultAllowedExtensions 100 envTimeout "/tmp/upload.mp4" []
      "Command timed out after 300 seconds" (by decide) rfl rfl

/-- C3 counterexample: the claim says that whenever the cached token is
within 60 seconds of expiry or expired, a new authentication request is
issued before the completion call.  But `analyze_speech` only authenticates
when NO token is cached: here the cached token expired at epoch second 100,
the call happens at second 1000, and zero authentication requests are
issued. -/
theorem C3_counterexample :
    pyTruthyStr stExpired.access_token = true ∧
    stExpired.token_expires_at = some 100 ∧
    tokenFresh stExpired 1000 = false ∧
    (analyze_speech noParse true stExpired 1000 authEnvOk chatReply).authPosts
      = 0 := by
  decide

/-- C3 (amended): during an augmentation attempt, no authentication request
is issued whenever any (non-empty) token is cached — regardless of its
expiry — and at least one authentication request is issued before the
completion call whenever no token is cached (and an API key is configured).
The 60-second pre-expiry window exists only inside `authenticate`, which
`analyze_speech` does not invoke while a token is cached. -/
theorem C3_auth_request_iff_no_cached_token :
    (∀ (parse : String → Option GigaChatAnalysis) (enabled : Bool)
      (st : ClientState) (now : Int) (aEnv : Nat → AuthResp) (chat : ChatResp),
      pyTruthyStr st.access_token = true →
      (analyze_speech parse enabled st now aEnv chat).authPosts = 0) ∧
    (∀ (parse : String → Option GigaChatAnalysis) (st : ClientState) (now : Int)
      (aEnv : Nat → AuthResp) (chat : ChatResp),
      pyTruthyStr st.access_token = false → pyTruthyStr st.api_key = true →
      1 ≤ (analyze_speech parse true st now aEnv chat).authPosts) := by
  constructor
  · intro parse enabled st now aEnv chat htok
    dsimp only [analyze_speech]
    cases enabled with
    | false => rfl
    | true =>
      rw [htok]
      simp only [Bool.not_true, Bool.false_eq_true, if_false]
      exact (analyzeSpeechChat_state_posts parse st 0 chat).2
  · intro parse st now aEnv chat htok hk
    have hfresh : tokenFresh st now = false := by
      simp [tokenFresh, htok]
    have hp := authenticate_posts_pos st now aEnv hk hfresh
    dsimp only [analyze_speech]
    rw [htok]
    simp only [Bool.not_false, if_true]
    cases hx : (authenticate st now aEnv).exc with
    | none =>
      show 1 ≤ (analyzeSpeechChat parse (authenticate st now aEnv).state
        (authenticate st now aEnv).posts chat).authPosts
      rw [(analyzeSpeechChat_state_posts parse (authenticate st now aEnv).state
        (authenticate st now aEnv).posts chat).2]
      exact hp
    | some e =>
      cases e with
      | gigaChatError m => exact hp
      | httpStatusError s => exact hp
      | requestError m => exact hp

/-- Witness for C3: with a cached fresh token the attempt issues no
authentication request; with no cached token it issues at least one. -/
theorem C3_auth_request_iff_no_cached_token_witness :
    (analyze_speech noParse true
      { st0 with access_token := some "tok", token_expires_at := some 4000 }
      0 authEnvOk chatReply).authPosts = 0 ∧
    1 ≤ (analyze_speech noParse true st0 0 authEnvOk chatReply).authPosts := by
  constructor
  · exact C3_auth_request_iff_no_cached_token.1 noParse true
      { st0 with access_token := some "tok", token_expires_at := some 4000 }
      0 authEnvOk chatReply rfl
  · exact C3_auth_request_iff_no_cached_token.2 noParse st0 0 authEnvOk
      chatReply rfl rfl

/-- C7: a 429 authentication response triggers the fixed 30-second backoff
and exactly one retry (two requests in total); a 429 on the retry fails with
the rate-limit-specific error (its cause tag and its message, which mentions
"rate limit", are distinct from the generic HTTP-failure error produced by
other non-200 responses). -/
theorem C7_rate_limit_retry (st : ClientState) (now : Int) (env : Nat → AuthResp)
    (tok tok2 : Option String) (exp exp2 : Option Int) (s2 : Nat)
    (hk : pyTruthyStr st.api_key = true) (hf : tokenFresh st now = false)
    (h0 : env 0 = .http 429 tok exp) (h1 : env 1 = .http s2 tok2 exp2) :
    (authenticate st now env).sleeps = [30] ∧
    (authenticate st now env).posts = 2 ∧
    (s2 = 429 →
      (authenticate st now env).cause = some .rateLimited ∧
      (authenticate st now env).exc =
        some (.gigaChatError ("Authentication error: " ++ rateLimitMsg)) ∧
      strContains ("Authentication error: " ++ rateLimitMsg) "rate limit" = true) ∧
    (400 ≤ s2 → s2 ≠ 429 →
      (authenticate st now env).cause = some (.httpError s2) ∧
      AuthFailCause.httpError s2 ≠ AuthFailCause.rateLimited) := by
  have hA : authenticate st now env = finishAuth st 2 [30] s2 tok2 exp2 := by
    dsimp only [authenticate]
    rw [hk, hf, h0, h1]
    rfl
  rw [hA]
  obtain ⟨hp, hsl⟩ := finishAuth_posts_sleeps st 2 [30] s2 tok2 exp2
  refine ⟨hsl, hp, ?_, ?_⟩
  · intro h429
    subst h429
    rw [finishAuth_429]
    exact ⟨rfl, rfl, by decide⟩
  · intro hge hne
    have h200 : s2 ≠ 200 := by omega
    dsimp only [finishAuth]
    rw [if_neg (fun h => hne h.2), if_pos ⟨h200, hge⟩]
    exact ⟨rfl, fun h => AuthFailCause.noConfusion h⟩

/-- Witness for C7: a double-429 trace sleeps 30 s, posts twice, and fails
rate-limited; a 429-then-500 trace fails with the generic HTTP error. -/
theorem C7_rate_limit_retry_witness :
    (authenticate st0 0 env429).sleeps = [30] ∧
    (authenticate st0 0 env429).posts = 2 ∧
    (authenticate st0 0 env429).cause = some .rateLimited ∧
    (authenticate st0 0 env429then500).cause = some (.httpError 500) := by
  have h := C7_rate_limit_retry st0 0 env429 none none none none 429
    rfl (by decide) rfl rfl
  have h2 := C7_rate_limit_retry st0 0 env429then500 none none none none 500
    rfl (by decide) rfl rfl
  exact ⟨h.1, h.2.1, (h.2.2.1 rfl).1, (h2.2.2.2 (by omega) (by decide)).1⟩

/-- C8: on a connect failure mentioning SSL while verification is enabled,
the client retries the authentication request exactly once over a transport
built with verification disabled (two requests in total, the new transport
unverified); on success the `verify_ssl` attribute is downgraded; and the
downgrade is one-way — once `verify_ssl` (or the transport flag) is false,
no later `authenticate` or `analyze_speech` call ever sets it back. -/
theorem C8_ssl_fallback_one_way :
    (∀ (st : ClientState) (now : Int) (env : Nat → AuthResp) (m : String),
      pyTruthyStr st.api_key = true → tokenFresh st now = false →
      st.verify_ssl = true → env 0 = .connectError m →
      strContains m "SSL" = true →
      (authenticate st now env).posts = 2 ∧
      (authenticate st now env).state.client_verify = false) ∧
    (∀ (st : ClientState) (now : Int) (env : Nat → AuthResp) (m : String)
      (s : Nat) (tok : Option String) (e : Option Int),
      pyTruthyStr st.api_key = true → tokenFresh st now = false →
      st.verify_ssl = true → env 0 = .connectError m →
      strContains m "SSL" = true → env 1 = .http s tok e →
      ¬ 400 ≤ s → pyTruthyStr tok = true →
      (authenticate st now env).state.verify_ssl = false ∧
      (authenticate st now env).exc = none) ∧
    (∀ (st : ClientState) (now : Int) (env : Nat → AuthResp),
      st.verify_ssl = false → (authenticate st now env).state.verify_ssl = false) ∧
    (∀ (st : ClientState) (now : Int) (env : Nat → AuthResp),
      st.client_verify = false →
      (authenticate st now env).state.client_verify = false) ∧
    (∀ (parse : String → Option GigaChatAnalysis) (enabled : Bool)
      (st : ClientState) (now : Int) (aEnv : Nat → AuthResp) (chat : ChatResp),
      st.verify_ssl = false →
      (analyze_speech parse enabled st now aEnv chat).state.verify_ssl = false) := by
  refine ⟨?_, ?_, authenticate_verify_ssl_false, authenticate_client_verify_false, ?_⟩
  · intro st now env m hk hf hssl h0 hm
    have hA : authenticate st now env = authRequestError st 1 [] true m (env 1) := by
      dsimp only [authenticate]
      rw [hk, hf, h0]
      rfl
    rw [hA]
    dsimp only [authRequestError]
    rw [hm, hssl]
    simp only [Bool.and_self, if_true]
    constructor
    · show 1 + (retry_without_ssl st (env 1)).posts = 2
      rw [retry_without_ssl_posts]
    · show (retry_without_ssl st (env 1)).state.client_verify = false
      exact retry_without_ssl_client_verify st (env 1)
  · intro st now env m s tok e hk hf hssl h0 hm h1 hge htok
    have hA : authenticate st now env = authRequestError st 1 [] true m (env 1) := by
      dsimp only [authenticate]
      rw [hk, hf, h0]
      rfl
    rw [hA, h1]
    dsimp only [authRequestError]
    rw [hm, hssl]
    dsimp only [retry_without_ssl]
    rw [if_neg hge, htok]
    exact ⟨rfl, rfl⟩
  · intro parse enabled st now aEnv chat h
    dsimp only [analyze_speech]
    cases enabled with
    | false => exact h
    | true =>
      cases htok : pyTruthyStr st.access_token with
      | true =>
        show (analyzeSpeechChat parse st 0 chat).state.verify_ssl = false
        rw [(analyzeSpeechChat_state_posts parse st 0 chat).1]
        exact h
      | false =>
        have hv := authenticate_verify_ssl_false st now aEnv h
        cases hx : (authenticate st now aEnv).exc with
        | none =>
          show (analyzeSpeechChat parse (authenticate st now aEnv).state
            (authenticate st now aEnv).posts chat).state.verify_ssl = false
          rw [(analyzeSpeechChat_state_posts parse (authenticate st now aEnv).state
            (authenticate st now aEnv).posts chat).1]
          exact hv
        | some e =>
          cases e with
          | gigaChatError m => exact hv
          | httpStatusError s => exact hv
          | requestError m => exact hv

/-- Witness for C8: an SSL connect error on a verifying client posts twice
and lands on an unverified transport with `verify_ssl` downgraded; a later
call on the downgraded client (`stB`) keeps `verify_ssl` false. -/
theorem C8_ssl_fallback_one_way_witness :
    (authenticate st0 1 envSslThenOk).posts = 2 ∧
    (authenticate st0 1 envSslThenOk).state.client_verify = false ∧
    (authenticate st0 1 envSslThenOk).state.verify_ssl = false ∧
    (authenticate stB 5 env429).state.verify_ssl = false := by
  have h1 := C8_ssl_fallback_one_way.1 st0 1 envSslThenOk
    "SSL: CERTIFICATE_VERIFY_FAILED" rfl (by decide) rfl rfl (by decide)
  have h2 := C8_ssl_fallback_one_way.2.1 st0 1 envSslThenOk
    "SSL: CERTIFICATE_VERIFY_FAILED" 200 (some "T2") none rfl (by decide) rfl
    rfl (by decide) rfl (by omega) rfl
  have h3 := C8_ssl_fallback_one_way.2.2.1 stB 5 env429 (by decide)
  exact ⟨h1.1, h1.2, h2.1, h3⟩

/-- C9: when the completion text is neither strict JSON for the
`GigaChatAnalysis` shape nor contains a parseable brace-delimited JSON
object, `analyze_speech` does not raise: the parse pipeline returns the
degraded value whose overall assessment is the 500-character prefix of the
raw text, whose confidence score is exactly 0.3, and whose recommendations
list is non-empty, carrying the 1000-character prefix of the raw text. -/
theorem C9_degraded_fallback (parse : String → Option GigaChatAnalysis)
    (content : String) (h1 : parse content = none)
    (h2 : (braceSpan content).bind parse = none) :
    parseChatContent parse content = degraded content ∧
    (degraded content).overall_assessment = strTake content 500 ∧
    (degraded content).confidence_score = 3 / 10 ∧
    (degraded content).detailed_recommendations =
      ["Полный текст анализа: " ++ strTake content 1000] ∧
    (degraded content).detailed_recommendations ≠ [] ∧
    (∀ (st : ClientState) (posts : Nat),
      (analyzeSpeechChat parse st posts (.http 200 (some content))).result =
        .ok (some (degraded content))) := by
  have hparse : parseChatContent parse content = degraded content := by
    dsimp only [parseChatContent]
    rw [h1]
    cases hb : braceSpan content with
    | none => rfl
    | some sub =>
      rw [hb, Option.some_bind] at h2
      dsimp only
      rw [h2]
  refine ⟨hparse, rfl, rfl, rfl, fun h => List.noConfusion h, ?_⟩
  intro st posts
  show Except.ok (some (parseChatContent parse content)) =
    Except.ok (some (degraded content))
  rw [hparse]

/-- Witness for C9: a plain-text reply with no braces goes to the degraded
value with confidence 0.3. -/
theorem C9_degraded_fallback_witness :
    parseChatContent noParse "plain reply" = degraded "plain reply" ∧
    (degraded "plain reply").confidence_score = 3 / 10 ∧
    (degraded "plain reply").overall_assessment = "plain reply" ∧
    (analyzeSpeechChat noParse st0 0 (.http 200 (some "plain reply"))).result =
      .ok (some (degraded "plain reply")) := by
  have h := C9_degraded_fallback noParse "plain reply" rfl (by decide)
  exact ⟨h.1, h.2.2.1, by decide, h.2.2.2.2.2 st0 0⟩

/-- C10 counterexample: the claim says the cached-token fast path can NEVER
classify a fallback-obtained token as fresh.  But `authenticate` stores
`expires_at` before checking for the token, so a 200 response carrying an
expiry but no token leaves a future expiry behind; a subsequent successful
SSL-fallback authentication (which sets only the token) then passes the
fast path: the third call below reuses the fallback token with zero
requests. -/
theorem C10_counterexample :
    (stA.access_token = none ∧ stA.token_expires_at = some 1000 ∧
      stA.verify_ssl = true) ∧
    ((authenticate stA 1 envSslThenOk).exc = none ∧
      (authenticate stA 1 envSslThenOk).posts = 2 ∧
      stB.access_token = some "T2" ∧ stB.verify_ssl = false ∧
      stB.token_expires_at = some 1000) ∧
    tokenFresh stB 2 = true ∧
    (authenticate stB 2 authEnvOk).posts = 0 ∧
    (authenticate stB 2 authEnvOk).exc = none := by
  decide

/-- C10 (amended): a successful `_retry_without_ssl` updates only the
access-token field of the token state — the expiry keeps its prior value —
so when the fallback happens with no stored expiry (in particular on a
first authentication) the fast path can never classify the fallback token
as fresh.  However, a failed earlier authentication can have stored a
future expiry without a token, after which a fallback-obtained token IS
classified fresh (see the counterexample). -/
theorem C10_fallback_keeps_expiry :
    (∀ (st : ClientState) (resp : AuthResp),
      (retry_without_ssl st resp).state.token_expires_at = st.token_expires_at) ∧
    (∀ (st : ClientState) (resp : AuthResp),
      (retry_without_ssl st resp).state.api_key = st.api_key) ∧
    (∀ (st : ClientState) (resp : AuthResp) (now : Int),
      st.token_expires_at = none →
      tokenFresh (retry_without_ssl st resp).state now = false) := by
  refine ⟨retry_without_ssl_expires, ?_, ?_⟩
  · intro st resp
    rcases resp with ⟨s, t, e⟩ | m | m
    · dsimp only [retry_without_ssl]
      split
      · rfl
      · split <;> rfl
    · rfl
    · rfl
  · intro st resp now h
    have he := retry_without_ssl_expires st resp
    rw [h] at he
    simp [tokenFresh, he, pyTruthyNum]

/-- Witness for C10: a fallback on a client with no stored expiry keeps the
expiry `None`, and the fast path stays cold. -/
theorem C10_fallback_keeps_expiry_witness :
    (retry_without_ssl st0 (.http 200 (some "T2") none)).state.token_expires_at
      = none ∧
    tokenFresh (retry_without_ssl st0 (.http 200 (some "T2") none)).state 0
      = false := by
  refine ⟨?_, C10_fallback_keeps_expiry.2.2 st0 (.http 200 (some "T2") none) 0 rfl⟩
  rw [C10_fallback_keeps_expiry.1 st0 (.http 200 (some "T2") none)]
  rfl

end SpeechCoach
